import Mathlib

/-!
Verification of the Source Governor (rate limiter) of the memefinder
repository, translated from `src/index.ts` (class `RateLimiter`).

Times (`Date.now()`, backoff deadlines, window cutoffs) are modelled as
`Int` (JS computes signed cutoffs such as `Date.now() - windowMs`).
Counters that the code clamps at zero (`inFlight`) are `Int` with an
explicit `max 0`.  Waiter continuations (`concurrencyQueue`) are modelled
as the FIFO list of the identifiers of the suspended `waitForSlot` calls.

The concurrency semantics follows the JavaScript event loop: a
`waitForSlot` call runs atomically from its entry, or from a resumption
point (a resolved queue promise or an elapsed `sleep`), up to the next
`await` that actually suspends.  Resolving a waiter's promise does not run
it at once: the waiter moves to a `woken` phase and resumes in a later,
separate atomic step, exactly as a JS microtask does.
-/

/-- `RateLimitConfig` from the source (`maxRequests`, `windowMs`,
`maxConcurrent`, `minDelayMs`). -/
structure RateLimitConfig where
  maxRequests : Nat
  windowMs : Int
  maxConcurrent : Nat
  minDelayMs : Int
deriving DecidableEq

/-- `RateLimitState` from the source: per-source mutable state. -/
structure RateLimitState where
  timestamps : List Int
  backoffUntil : Int
  consecutiveFailures : Nat
  inFlight : Int
  concurrencyQueue : List Nat
  lastRequestTime : Int
  quotaExhausted : Bool
deriving DecidableEq

/-- The zeroed state `getState` creates on first use. -/
def rlInit : RateLimitState :=
  { timestamps := []
    backoffUntil := 0
    consecutiveFailures := 0
    inFlight := 0
    concurrencyQueue := []
    lastRequestTime := 0
    quotaExhausted := false }

/-- `QUOTA_EXHAUSTED_THRESHOLD` from the source. -/
def QUOTA_EXHAUSTED_THRESHOLD : Nat := 5

/-- `isQuotaExhausted` from the source (the spec's `isUnavailable`). -/
def isQuotaExhausted (rl : RateLimitState) : Bool :=
  rl.quotaExhausted

/-- `releaseConcurrencySlot` from the source:
`inFlight = Math.max(0, inFlight - 1)`, then pop and resolve the head of
`concurrencyQueue` if non-empty.  Returns the resolved waiter, if any. -/
def releaseConcurrencySlot (rl : RateLimitState) : RateLimitState × Option Nat :=
  let rl1 := { rl with inFlight := max 0 (rl.inFlight - 1) }
  match rl1.concurrencyQueue with
  | [] => (rl1, none)
  | next :: rest => ({ rl1 with concurrencyQueue := rest }, some next)

/-- `drainConcurrencyQueue` from the source: resolve every queued waiter. -/
def drainConcurrencyQueue (rl : RateLimitState) : RateLimitState × List Nat :=
  ({ rl with concurrencyQueue := [] }, rl.concurrencyQueue)

/-- `reportSuccess` from the source: reset `consecutiveFailures`, clear
`quotaExhausted`, release the concurrency slot. -/
def reportSuccess (rl : RateLimitState) : RateLimitState × Option Nat :=
  releaseConcurrencySlot
    { rl with consecutiveFailures := 0, quotaExhausted := false }

/-- `reportFailure` from the source.  Returns the new state together with
the list of waiters resolved by this call (drained ones first, then the
one popped by `releaseConcurrencySlot`). -/
def reportFailure (rl : RateLimitState) (now : Int) (statusCode : Option Int) :
    RateLimitState × List Nat :=
  if rl.quotaExhausted then (rl, [])
  else
    let cf := rl.consecutiveFailures + 1
    let backoffMs : Int := min (1000 * 2 ^ (cf - 1)) 60000
    let rl1 := { rl with
      consecutiveFailures := cf
      backoffUntil :=
        if statusCode = some 429 then now + backoffMs * 3 else now + backoffMs }
    if QUOTA_EXHAUSTED_THRESHOLD ≤ cf then
      let drained := rl1.concurrencyQueue
      let rl2 := { rl1 with quotaExhausted := true, concurrencyQueue := [] }
      let res := releaseConcurrencySlot rl2
      (res.1, drained ++ res.2.toList)
    else
      let res := releaseConcurrencySlot rl1
      (res.1, res.2.toList)

/-- Which synchronous block of `waitForSlot` a sleeping call resumes
into: `delay` resumes at the minimum-delay check (it slept at the backoff
wait), `window` resumes at the sliding-window check (it slept at the
minimum-delay wait), `push` resumes at the re-prune-and-record block (it
slept at the sliding-window wait). -/
inductive Stage where
  | delay
  | window
  | push
deriving DecidableEq

/-- Result of running a synchronous block of `waitForSlot`: either the
call is granted (timestamp recorded, function returns), or it suspends in
a `sleep` until `wake`, resuming at stage `st`. -/
inductive Outcome where
  | granted
  | sleep (wake : Int) (st : Stage)
deriving DecidableEq

/-- Tail of `waitForSlot`: `state.timestamps.push(Date.now());
state.lastRequestTime = Date.now()`. -/
def recordRequest (rl : RateLimitState) (now : Int) : RateLimitState × Outcome :=
  ({ rl with timestamps := rl.timestamps ++ [now], lastRequestTime := now },
   Outcome.granted)

/-- Re-prune after the sliding-window sleep, then record: the block the
code runs after `await this.sleep(waitMs)` inside the capacity check and
through to the end of `waitForSlot`.  Note it records unconditionally: the
capacity check is not re-evaluated after the sleep. -/
def runAfterWindowSleep (cfg : RateLimitConfig) (rl : RateLimitState)
    (now : Int) : RateLimitState × Outcome :=
  recordRequest
    { rl with timestamps := rl.timestamps.filter (fun t => now - cfg.windowMs < t) }
    now

/-- The prune / capacity-check block of `waitForSlot`: prune timestamps to
`t > Date.now() - windowMs`; if the remaining count reaches `maxRequests`,
sleep until `oldest + windowMs + 100`; otherwise record immediately. -/
def runFromWindow (cfg : RateLimitConfig) (rl : RateLimitState) (now : Int) :
    RateLimitState × Outcome :=
  let ts1 := rl.timestamps.filter (fun t => now - cfg.windowMs < t)
  let rl1 := { rl with timestamps := ts1 }
  if cfg.maxRequests ≤ ts1.length then
    match ts1 with
    | [] => recordRequest rl1 now
    | oldest :: _ =>
      if 0 < oldest + cfg.windowMs - now + 100 then
        (rl1, Outcome.sleep (oldest + cfg.windowMs + 100) Stage.push)
      else recordRequest rl1 now
  else recordRequest rl1 now

/-- The minimum-delay block of `waitForSlot`: if `minDelayMs > 0`,
`lastRequestTime > 0` and the elapsed time is below `minDelayMs`, sleep
the remainder; then fall through to the window block. -/
def runFromDelay (cfg : RateLimitConfig) (rl : RateLimitState) (now : Int) :
    RateLimitState × Outcome :=
  if 0 < cfg.minDelayMs ∧ 0 < rl.lastRequestTime ∧
      now - rl.lastRequestTime < cfg.minDelayMs then
    (rl, Outcome.sleep (rl.lastRequestTime + cfg.minDelayMs) Stage.window)
  else runFromWindow cfg rl now

/-- The backoff block of `waitForSlot`, entered right after
`state.inFlight++`: if `backoffUntil > Date.now()`, sleep until
`backoffUntil`; then fall through to the minimum-delay block. -/
def runFromBackoff (cfg : RateLimitConfig) (rl : RateLimitState) (now : Int) :
    RateLimitState × Outcome :=
  if now < rl.backoffUntil then (rl, Outcome.sleep rl.backoffUntil Stage.delay)
  else runFromDelay cfg rl now

/-- Resume a slept `waitForSlot` call at its recorded stage. -/
def resumeStage (cfg : RateLimitConfig) (st : Stage) (rl : RateLimitState)
    (now : Int) : RateLimitState × Outcome :=
  match st with
  | Stage.delay => runFromDelay cfg rl now
  | Stage.window => runFromWindow cfg rl now
  | Stage.push => runAfterWindowSleep cfg rl now

/-- The phase of one `waitForSlot` call (one logical caller).  Thread
identifiers double as arrival order: they are assigned from a counter when
the call starts. -/
inductive Phase where
  | waiting
  | woken
  | sleeping (wake : Int) (st : Stage)
  | granted
  | failed
deriving DecidableEq

/-- Map a block outcome to the resulting thread phase. -/
def phaseOfOutcome : Outcome → Phase
  | Outcome.granted => Phase.granted
  | Outcome.sleep wake st => Phase.sleeping wake st

/-- Whole-system state for one source: the shared `RateLimitState`, the
clock, the phases of all `waitForSlot` calls started so far, and the next
arrival number. -/
structure Sys where
  rl : RateLimitState
  now : Int
  threads : List (Nat × Phase)
  nextArr : Nat
deriving DecidableEq

def sysInit : Sys :=
  { rl := rlInit, now := 0, threads := [], nextArr := 0 }

/-- Replace the phase of thread `t`. -/
def setPhase (t : Nat) (ph : Phase) (th : List (Nat × Phase)) :
    List (Nat × Phase) :=
  th.map (fun p => if p.1 = t then (t, ph) else p)

/-- Resolving waiters' promises moves them to the `woken` phase. -/
def wakeIds (ids : List Nat) (th : List (Nat × Phase)) : List (Nat × Phase) :=
  ids.foldl (fun acc i => setPhase i Phase.woken acc) th

def setThreadPhase (t : Nat) (ph : Phase) (s : Sys) : Sys :=
  { s with threads := setPhase t ph s.threads }

/-- One scheduler event. `start` begins a new `waitForSlot` call;
`resumeWoken` resumes a waiter whose queue promise was resolved;
`resumeSleep` resumes a call whose `sleep` timer elapsed; `tick` advances
the clock; `success` / `failure` are `reportSuccess` / `reportFailure`
calls by the environment. -/
inductive Label where
  | start
  | resumeWoken (t : Nat)
  | resumeSleep (t : Nat)
  | tick (d : Nat)
  | success
  | failure (statusCode : Option Int)

/-- One atomic step of the event loop (a synchronous block between
suspension points).  `none` means the event is not enabled. -/
def step (cfg : RateLimitConfig) (l : Label) (s : Sys) : Option Sys :=
  match l with
  | Label.tick d => some { s with now := s.now + d }
  | Label.success =>
    let res := reportSuccess s.rl
    some { s with rl := res.1, threads := wakeIds res.2.toList s.threads }
  | Label.failure code =>
    let res := reportFailure s.rl s.now code
    some { s with rl := res.1, threads := wakeIds res.2 s.threads }
  | Label.start =>
    let t := s.nextArr
    if s.rl.quotaExhausted then
      some { s with threads := s.threads ++ [(t, Phase.failed)], nextArr := t + 1 }
    else if (cfg.maxConcurrent : Int) ≤ s.rl.inFlight then
      some { s with
        rl := { s.rl with concurrencyQueue := s.rl.concurrencyQueue ++ [t] }
        threads := s.threads ++ [(t, Phase.waiting)]
        nextArr := t + 1 }
    else
      let res := runFromBackoff cfg { s.rl with inFlight := s.rl.inFlight + 1 } s.now
      some { s with
        rl := res.1
        threads := s.threads ++ [(t, phaseOfOutcome res.2)]
        nextArr := t + 1 }
  | Label.resumeWoken t =>
    match s.threads.lookup t with
    | some Phase.woken =>
      if s.rl.quotaExhausted then some (setThreadPhase t Phase.failed s)
      else if (cfg.maxConcurrent : Int) ≤ s.rl.inFlight then
        some { setThreadPhase t Phase.waiting s with
          rl := { s.rl with concurrencyQueue := s.rl.concurrencyQueue ++ [t] } }
      else
        let res := runFromBackoff cfg { s.rl with inFlight := s.rl.inFlight + 1 } s.now
        some { setThreadPhase t (phaseOfOutcome res.2) s with rl := res.1 }
    | _ => none
  | Label.resumeSleep t =>
    match s.threads.lookup t with
    | some (Phase.sleeping wake st) =>
      if wake ≤ s.now then
        let res := resumeStage cfg st s.rl s.now
        some { setThreadPhase t (phaseOfOutcome res.2) s with rl := res.1 }
      else none
    | _ => none

/-- Run a list of scheduler events from a state. -/
def run (cfg : RateLimitConfig) (s : Sys) : List Label → Option Sys
  | [] => some s
  | l :: ls =>
    match step cfg l s with
    | none => none
    | some s1 => run cfg s1 ls

/-- The run's final state, defaulting to `sysInit` (for witnesses). -/
def runD (cfg : RateLimitConfig) (ls : List Label) : Sys :=
  (run cfg sysInit ls).getD sysInit

/-- `DEFAULT_LIMITS` from the source. -/
def DEFAULT_LIMITS : String → Option RateLimitConfig := fun name =>
  if name = "reddit" then some ⟨60, 60000, 10, 0⟩
  else if name = "dexscreener" then some ⟨30, 60000, 5, 0⟩
  else if name = "pumpfun" then some ⟨20, 60000, 5, 0⟩
  else if name = "jupiter" then some ⟨30, 60000, 3, 0⟩
  else if name = "helius" then some ⟨50, 60000, 1, 350⟩
  else if name = "googletrends" then some ⟨10, 60000, 5, 0⟩
  else if name = "goplus" then some ⟨30, 60000, 5, 0⟩
  else if name = "heliusws" then some ⟨100, 60000, 10, 0⟩
  else if name = "pumpfunlaunch" then some ⟨10, 60000, 5, 0⟩
  else if name = "dexscreenertrending" then some ⟨30, 60000, 5, 0⟩
  else if name = "jupitertrending" then some ⟨20, 60000, 5, 0⟩
  else if name = "telegram" then some ⟨30, 60000, 5, 0⟩
  else none

def pumpfunCfg : RateLimitConfig := ⟨20, 60000, 5, 0⟩

def jupiterCfg : RateLimitConfig := ⟨30, 60000, 3, 0⟩

/-- The registry: source name to state; `getState`'s lazy creation is
modelled extensionally by defaulting every name to the zeroed state. -/
def governorInit : String → RateLimitState := fun _ => rlInit

/-- Registry-level `reportFailure`: update the named source's state. -/
def reportFailureG (name : String) (now : Int) (statusCode : Option Int)
    (g : String → RateLimitState) : String → RateLimitState :=
  fun n => if n = name then (reportFailure (g name) now statusCode).1 else g n

/-- Registry-level `isQuotaExhausted`. -/
def isQuotaExhaustedG (name : String) (g : String → RateLimitState) : Bool :=
  (g name).quotaExhausted

/-- How `waitForSlot` enters: names absent from `DEFAULT_LIMITS` return
at once (before `getState`), an exhausted quota throws, otherwise the
admission logic proceeds under the name's config. -/
inductive EntryOutcome where
  | bypass
  | fastFail
  | proceed (cfg : RateLimitConfig)
deriving DecidableEq

/-- The entry lines of `waitForSlot`:
`const limits = DEFAULT_LIMITS[source]; if (!limits) return;` then the
`quotaExhausted` fast-fail check. -/
def waitForSlotEntry (name : String) (g : String → RateLimitState) :
    EntryOutcome :=
  match DEFAULT_LIMITS name with
  | none => EntryOutcome.bypass
  | some cfg =>
    if (g name).quotaExhausted then EntryOutcome.fastFail
    else EntryOutcome.proceed cfg

/-- Number of threads that have failed with `SourceUnavailable`. -/
def countFailed (th : List (Nat × Phase)) : Nat :=
  th.countP (fun p => decide (p.2 = Phase.failed))

/-- Recorded admissions lying in the half-open interval `(a, a + w]`. -/
def recordedWithin (ts : List Int) (a w : Int) : Nat :=
  (ts.filter (fun t => a < t ∧ t ≤ a + w)).length

/-! ### Basic lemmas about the state operations -/

theorem releaseConcurrencySlot_fst (rl : RateLimitState) :
    (releaseConcurrencySlot rl).1 =
      { rl with inFlight := max 0 (rl.inFlight - 1)
                concurrencyQueue := rl.concurrencyQueue.tail } := by
  unfold releaseConcurrencySlot
  cases h : rl.concurrencyQueue <;> simp [h]

theorem releaseConcurrencySlot_snd (rl : RateLimitState) :
    (releaseConcurrencySlot rl).2 = rl.concurrencyQueue.head? := by
  unfold releaseConcurrencySlot
  cases h : rl.concurrencyQueue <;> simp [h]

theorem recordRequest_inFlight (rl : RateLimitState) (now : Int) :
    ((recordRequest rl now).1).inFlight = rl.inFlight := rfl

theorem runAfterWindowSleep_inFlight (cfg : RateLimitConfig)
    (rl : RateLimitState) (now : Int) :
    ((runAfterWindowSleep cfg rl now).1).inFlight = rl.inFlight := rfl

theorem runFromWindow_inFlight (cfg : RateLimitConfig) (rl : RateLimitState)
    (now : Int) : ((runFromWindow cfg rl now).1).inFlight = rl.inFlight := by
  unfold runFromWindow recordRequest
  dsimp only
  repeat' split
  all_goals rfl

theorem runFromDelay_inFlight (cfg : RateLimitConfig) (rl : RateLimitState)
    (now : Int) : ((runFromDelay cfg rl now).1).inFlight = rl.inFlight := by
  unfold runFromDelay
  split
  · rfl
  · exact runFromWindow_inFlight cfg rl now

theorem runFromBackoff_inFlight (cfg : RateLimitConfig) (rl : RateLimitState)
    (now : Int) : ((runFromBackoff cfg rl now).1).inFlight = rl.inFlight := by
  unfold runFromBackoff
  split
  · rfl
  · exact runFromDelay_inFlight cfg rl now

theorem resumeStage_inFlight (cfg : RateLimitConfig) (st : Stage)
    (rl : RateLimitState) (now : Int) :
    ((resumeStage cfg st rl now).1).inFlight = rl.inFlight := by
  cases st
  · exact runFromDelay_inFlight cfg rl now
  · exact runFromWindow_inFlight cfg rl now
  · exact runAfterWindowSleep_inFlight cfg rl now

theorem reportSuccess_fst (rl : RateLimitState) :
    (reportSuccess rl).1 =
      { rl with consecutiveFailures := 0
                quotaExhausted := false
                inFlight := max 0 (rl.inFlight - 1)
                concurrencyQueue := rl.concurrencyQueue.tail } := by
  unfold reportSuccess
  rw [releaseConcurrencySlot_fst]

theorem reportFailure_inFlight (rl : RateLimitState) (now : Int)
    (code : Option Int) :
    ((reportFailure rl now code).1).inFlight =
      if rl.quotaExhausted then rl.inFlight else max 0 (rl.inFlight - 1) := by
  unfold reportFailure
  split
  · simp_all
  · dsimp only
    split <;> split <;> simp [releaseConcurrencySlot_fst]

/-! ### The in-flight counter is bounded in every reachable state -/

theorem step_inFlight_bounds (cfg : RateLimitConfig) (l : Label) (s s2 : Sys)
    (h : step cfg l s = some s2) (h0 : 0 ≤ s.rl.inFlight)
    (h1 : s.rl.inFlight ≤ (cfg.maxConcurrent : Int)) :
    0 ≤ s2.rl.inFlight ∧ s2.rl.inFlight ≤ (cfg.maxConcurrent : Int) := by
  have hk : (0 : Int) ≤ (cfg.maxConcurrent : Int) := Int.natCast_nonneg _
  cases l with
  | tick d =>
    simp only [step] at h
    obtain rfl := Option.some.inj h
    exact ⟨h0, h1⟩
  | success =>
    simp only [step] at h
    obtain rfl := Option.some.inj h
    simp only [reportSuccess_fst]
    constructor
    · exact le_max_left _ _
    · exact max_le hk (by omega)
  | failure code =>
    simp only [step] at h
    obtain rfl := Option.some.inj h
    simp only [reportFailure_inFlight]
    split
    · exact ⟨h0, h1⟩
    · exact ⟨le_max_left _ _, max_le hk (by omega)⟩
  | start =>
    simp only [step] at h
    split at h
    · obtain rfl := Option.some.inj h
      exact ⟨h0, h1⟩
    · split at h
      · obtain rfl := Option.some.inj h
        exact ⟨h0, h1⟩
      · obtain rfl := Option.some.inj h
        rename_i hfull
        simp only [runFromBackoff_inFlight]
        omega
  | resumeWoken t =>
    simp only [step] at h
    split at h
    · split at h
      · obtain rfl := Option.some.inj h
        exact ⟨h0, h1⟩
      · split at h
        · obtain rfl := Option.some.inj h
          exact ⟨h0, h1⟩
        · obtain rfl := Option.some.inj h
          rename_i hfull
          simp only [runFromBackoff_inFlight]
          omega
    · exact absurd h (by simp)
  | resumeSleep t =>
    simp only [step] at h
    split at h
    · split at h
      · obtain rfl := Option.some.inj h
        simp only [resumeStage_inFlight]
        exact ⟨h0, h1⟩
      · exact absurd h (by simp)
    · exact absurd h (by simp)

theorem run_inFlight_bounds (cfg : RateLimitConfig) :
    ∀ (ls : List Label) (s0 s : Sys), run cfg s0 ls = some s →
      0 ≤ s0.rl.inFlight → s0.rl.inFlight ≤ (cfg.maxConcurrent : Int) →
      0 ≤ s.rl.inFlight ∧ s.rl.inFlight ≤ (cfg.maxConcurrent : Int) := by
  intro ls
  induction ls with
  | nil =>
    intro s0 s h h0 h1
    obtain rfl : s0 = s := Option.some.inj h
    exact ⟨h0, h1⟩
  | cons l ls ih =>
    intro s0 s h h0 h1
    simp only [run] at h
    cases hs : step cfg l s0 with
    | none => rw [hs] at h; exact absurd h (by simp)
    | some s1 =>
      rw [hs] at h
      obtain ⟨g0, g1⟩ := step_inFlight_bounds cfg l s0 s1 hs h0 h1
      exact ih s1 s h g0 g1

theorem reach_inFlight_bounds (cfg : RateLimitConfig) (ls : List Label)
    (s : Sys) (h : run cfg sysInit ls = some s) :
    0 ≤ s.rl.inFlight ∧ s.rl.inFlight ≤ (cfg.maxConcurrent : Int) :=
  run_inFlight_bounds cfg ls sysInit s h (by decide)
    (Int.natCast_nonneg _)

/-! ### Failures consume no resource: counting failed threads -/

theorem phaseOfOutcome_ne_failed (o : Outcome) :
    phaseOfOutcome o ≠ Phase.failed := by
  cases o <;> simp [phaseOfOutcome]

theorem countFailed_append (th : List (Nat × Phase)) (t : Nat) (ph : Phase) :
    countFailed (th ++ [(t, ph)]) =
      countFailed th + (if ph = Phase.failed then 1 else 0) := by
  simp only [countFailed, List.countP_append, List.countP_cons, List.countP_nil]
  split <;> simp_all

theorem countFailed_setPhase_le (t : Nat) (ph : Phase)
    (hph : ph ≠ Phase.failed) (th : List (Nat × Phase)) :
    countFailed (setPhase t ph th) ≤ countFailed th := by
  induction th with
  | nil => simp [setPhase, countFailed]
  | cons a l ih =>
    simp only [setPhase, List.map_cons] at *
    simp only [countFailed, List.countP_cons] at *
    by_cases hat : a.1 = t
    · simp only [if_pos hat]
      have h2 : decide ((t, ph).2 = Phase.failed) = false := by simp [hph]
      rw [h2]
      have h3 : (if false = true then 1 else 0) = 0 := by simp
      rw [h3]
      split <;> omega
    · rw [if_neg hat]
      split <;> omega

theorem countFailed_wakeIds_le (ids : List Nat) :
    ∀ th : List (Nat × Phase), countFailed (wakeIds ids th) ≤ countFailed th := by
  induction ids with
  | nil => intro th; simp [wakeIds]
  | cons i ids ih =>
    intro th
    have h1 : wakeIds (i :: ids) th = wakeIds ids (setPhase i Phase.woken th) := rfl
    rw [h1]
    exact le_trans (ih _) (countFailed_setPhase_le i Phase.woken (by simp) th)

/-! ### Claim C1 -/

/-- A state with an open breaker and one in-flight call, as C1's claim
describes. -/
def c1state : RateLimitState :=
  { rlInit with quotaExhausted := true, inFlight := 1, concurrencyQueue := [7] }

/-- C1, counterexample: with the breaker open (`quotaExhausted = true`)
and `inFlight = 1`, `reportFailure` does NOT decrement `inFlight` — the
code returns before `releaseConcurrencySlot`, so `inFlight` stays `1`
rather than becoming `c1state.inFlight - 1 = 0` as the claim states. -/
theorem c1_counterexample :
    ¬ ((reportFailure c1state 0 none).1.inFlight = c1state.inFlight - 1) := by
  decide

/-- C1, amended: when the breaker is open, `reportFailure` returns
immediately, leaving the entire state unchanged (so in particular
`consecutiveFailures` and `backoffUntil` are untouched, as the claim
says) and neither decrements `inFlight` nor wakes any waiter. -/
theorem c1_fastfail_is_noop (rl : RateLimitState) (now : Int)
    (code : Option Int) (h : rl.quotaExhausted = true) :
    reportFailure rl now code = (rl, []) := by
  simp [reportFailure, h]

/-- Witness for `c1_fastfail_is_noop` at a concrete open-breaker state. -/
theorem c1_fastfail_is_noop_witness : reportFailure c1state 0 none = (c1state, []) :=
  c1_fastfail_is_noop c1state 0 none rfl

/-! ### Claim C2 -/

/-- C2: in every state reachable by any interleaving of `waitForSlot`
(start / wake / sleep-resume steps), `reportSuccess` and `reportFailure`
calls, while the breaker is closed `inFlight` never exceeds
`maxConcurrent`. -/
theorem c2_inFlight_bounded (cfg : RateLimitConfig) (ls : List Label)
    (s : Sys) (h : run cfg sysInit ls = some s)
    (_hq : s.rl.quotaExhausted = false) :
    s.rl.inFlight ≤ (cfg.maxConcurrent : Int) :=
  (reach_inFlight_bounds cfg ls s h).2

/-- Witness for `c2_inFlight_bounded` on a concrete two-call trace. -/
theorem c2_inFlight_bounded_witness :
    (runD pumpfunCfg [Label.start, Label.start]).rl.inFlight ≤
      (pumpfunCfg.maxConcurrent : Int) :=
  c2_inFlight_bounded pumpfunCfg [Label.start, Label.start]
    (runD pumpfunCfg [Label.start, Label.start]) (by decide) (by decide)

/-! ### Claim C10 -/

/-- C10: in every reachable state — including runs with `reportSuccess`
or `reportFailure` calls that had no matching acquire — `inFlight` is
never negative, and slot release clamps the counter at zero
(`Math.max(0, inFlight - 1)`). -/
theorem c10_inFlight_nonneg (cfg : RateLimitConfig) (ls : List Label)
    (s : Sys) (h : run cfg sysInit ls = some s) :
    0 ≤ s.rl.inFlight ∧
      ∀ rl : RateLimitState,
        (releaseConcurrencySlot rl).1.inFlight = max 0 (rl.inFlight - 1) :=
  ⟨(reach_inFlight_bounds cfg ls s h).1,
   fun rl => by rw [releaseConcurrencySlot_fst]⟩

/-- Witness for `c10_inFlight_nonneg` on a trace whose reports have no
matching acquire. -/
theorem c10_inFlight_nonneg_witness :
    0 ≤ (runD pumpfunCfg [Label.success, Label.success]).rl.inFlight ∧
      ∀ rl : RateLimitState,
        (releaseConcurrencySlot rl).1.inFlight = max 0 (rl.inFlight - 1) :=
  c10_inFlight_nonneg pumpfunCfg [Label.success, Label.success]
    (runD pumpfunCfg [Label.success, Label.success]) (by decide)

/-! ### Claim C6 -/

/-- C6: whenever the breaker is closed, `reportFailure` sets
`backoffUntil = now + delay` with
`delay = min(1000 * 2^(c-1), 60000)` for the incremented failure count
`c`, multiplied by exactly 3 when the status code is 429; hence the
delay with a 429 is exactly (so in particular at least) three times the
delay without one at the same failure count. -/
theorem c6_backoff_delay (rl : RateLimitState) (now : Int)
    (h : rl.quotaExhausted = false) :
    (∀ code : Option Int,
      (reportFailure rl now code).1.backoffUntil =
        now + (if code = some 429 then 3 else 1) *
          min (1000 * 2 ^ (rl.consecutiveFailures + 1 - 1)) 60000) ∧
    (reportFailure rl now (some 429)).1.backoffUntil - now =
      3 * ((reportFailure rl now none).1.backoffUntil - now) := by
  have key : ∀ code : Option Int,
      (reportFailure rl now code).1.backoffUntil =
        now + (if code = some 429 then 3 else 1) *
          min (1000 * 2 ^ (rl.consecutiveFailures + 1 - 1)) 60000 := by
    intro code
    unfold reportFailure
    rw [if_neg (by simp [h])]
    dsimp only
    split <;> split <;> simp [releaseConcurrencySlot_fst] <;> ring
  refine ⟨key, ?_⟩
  rw [key (some 429), key none]
  simp


/-- Witness for `c6_backoff_delay` at the zeroed state: the first
failure yields `backoffUntil = 1000` without a status code and `3000`
with a 429. -/
theorem c6_backoff_delay_witness :
    (reportFailure rlInit 0 (some 429)).1.backoffUntil =
        0 + (if (some 429 : Option Int) = some 429 then 3 else 1) *
          min (1000 * 2 ^ (rlInit.consecutiveFailures + 1 - 1)) 60000 ∧
    (reportFailure rlInit 0 (some 429)).1.backoffUntil - 0 =
      3 * ((reportFailure rlInit 0 none).1.backoffUntil - 0) :=
  ⟨(c6_backoff_delay rlInit 0 rfl).1 (some 429),
   (c6_backoff_delay rlInit 0 rfl).2⟩

/-! ### Failure counting across consecutive reportFailure calls -/

theorem reportFailure_closed_counters (rl : RateLimitState) (now : Int)
    (code : Option Int) (h : rl.quotaExhausted = false) :
    (reportFailure rl now code).1.consecutiveFailures = rl.consecutiveFailures + 1 ∧
    (reportFailure rl now code).1.quotaExhausted =
      decide (QUOTA_EXHAUSTED_THRESHOLD ≤ rl.consecutiveFailures + 1) := by
  unfold reportFailure
  rw [if_neg (by simp [h])]
  dsimp only
  split <;> split <;> simp [releaseConcurrencySlot_fst, *]

/-- Apply a sequence of `reportFailure` calls (each with its own clock
value and status code) with nothing in between. -/
def applyFailures (rl : RateLimitState) : List (Int × Option Int) → RateLimitState
  | [] => rl
  | p :: ps => applyFailures (reportFailure rl p.1 p.2).1 ps

theorem applyFailures_append (ps : List (Int × Option Int)) :
    ∀ (rl : RateLimitState) (p : Int × Option Int),
      applyFailures rl (ps ++ [p]) =
        (reportFailure (applyFailures rl ps) p.1 p.2).1 := by
  induction ps with
  | nil => intro rl p; rfl
  | cons q ps ih =>
    intro rl p
    simp only [List.cons_append, applyFailures]
    exact ih _ p

theorem applyFailures_closed (ps : List (Int × Option Int)) :
    ∀ rl : RateLimitState, rl.quotaExhausted = false →
      rl.consecutiveFailures + ps.length < QUOTA_EXHAUSTED_THRESHOLD →
      (applyFailures rl ps).quotaExhausted = false ∧
      (applyFailures rl ps).consecutiveFailures =
        rl.consecutiveFailures + ps.length := by
  induction ps with
  | nil =>
    intro rl h _
    exact ⟨h, by simp [applyFailures]⟩
  | cons p ps ih =>
    intro rl h hlen
    simp only [applyFailures]
    obtain ⟨hc, hq⟩ := reportFailure_closed_counters rl p.1 p.2 h
    simp only [List.length_cons] at hlen
    have hq2 : (reportFailure rl p.1 p.2).1.quotaExhausted = false := by
      rw [hq]
      simp only [decide_eq_false_iff_not]
      omega
    obtain ⟨g1, g2⟩ := ih (reportFailure rl p.1 p.2).1 hq2 (by rw [hc]; omega)
    refine ⟨g1, ?_⟩
    rw [g2, hc]
    simp only [List.length_cons]
    omega

/-! ### Claim C4 -/

/-- C4: starting from a closed breaker with a zero failure count, any
four consecutive `reportFailure` calls leave the breaker closed, a fifth
opens it (`isUnavailable` returns true), and on the open breaker the very
next `waitForSlot` call fails in its first synchronous block — the
thread is `failed` at once, nothing is enqueued, no timer is started, and
the limiter state is untouched. -/
theorem c4_breaker_trips_at_five (rl : RateLimitState)
    (h1 : rl.quotaExhausted = false) (h2 : rl.consecutiveFailures = 0)
    (ps : List (Int × Option Int)) (hlen : ps.length = 4)
    (p5 : Int × Option Int) :
    isQuotaExhausted (applyFailures rl ps) = false ∧
    isQuotaExhausted (applyFailures rl (ps ++ [p5])) = true ∧
    ∀ (cfg : RateLimitConfig) (s : Sys),
      s.rl = applyFailures rl (ps ++ [p5]) →
      step cfg Label.start s =
        some { s with threads := s.threads ++ [(s.nextArr, Phase.failed)]
                      nextArr := s.nextArr + 1 } := by
  obtain ⟨g1, g2⟩ := applyFailures_closed ps rl h1 (by
    rw [h2, hlen]; decide)
  have g3 : isQuotaExhausted (applyFailures rl (ps ++ [p5])) = true := by
    rw [applyFailures_append]
    show (reportFailure (applyFailures rl ps) p5.1 p5.2).1.quotaExhausted = true
    rw [(reportFailure_closed_counters _ p5.1 p5.2 g1).2, g2, h2, hlen]
    decide
  refine ⟨g1, g3, ?_⟩
  intro cfg s hs
  have hq : s.rl.quotaExhausted = true := by rw [hs]; exact g3
  simp [step, hq]

/-- The four failure reports of the C4 witness. -/
def c4ps4 : List (Int × Option Int) := List.replicate 4 ((0 : Int), none)

/-- The system state of the C4 witness after the fifth failure. -/
def c4sys : Sys :=
  { sysInit with rl := applyFailures rlInit (c4ps4 ++ [((0 : Int), none)]) }

/-- Witness for `c4_breaker_trips_at_five` on five concrete failures. -/
theorem c4_breaker_trips_at_five_witness :
    isQuotaExhausted (applyFailures rlInit c4ps4) = false ∧
    isQuotaExhausted (applyFailures rlInit (c4ps4 ++ [((0 : Int), none)])) = true ∧
    step pumpfunCfg Label.start c4sys =
      some { c4sys with threads := c4sys.threads ++ [(c4sys.nextArr, Phase.failed)]
                        nextArr := c4sys.nextArr + 1 } := by
  obtain ⟨g1, g2, g3⟩ :=
    c4_breaker_trips_at_five rlInit rfl rfl c4ps4 (by decide) ((0 : Int), none)
  exact ⟨g1, g2, g3 pumpfunCfg c4sys rfl⟩

/-! ### Claim C5 -/

/-- The C5 trace: five failures (tripping the breaker and setting a 16 s
backoff), one success (clearing the breaker), then an acquire 1 ms
later. -/
def c5trace : List Label :=
  [Label.failure none, Label.failure none, Label.failure none,
   Label.failure none, Label.failure none, Label.success, Label.tick 1,
   Label.start]

/-- C5, counterexample: after `reportSuccess` clears the open breaker,
the very next `waitForSlot` call does NOT succeed immediately: the
backoff deadline (16000) set by the failures survives `reportSuccess`,
so the call suspends in the backoff sleep instead of being granted. -/
theorem c5_counterexample :
    (run pumpfunCfg sysInit c5trace).map
        (fun s => (s.rl.quotaExhausted, s.threads.lookup 0)) =
      some (false, some (Phase.sleeping 16000 Stage.delay)) ∧
    Phase.sleeping 16000 Stage.delay ≠ Phase.granted := by
  constructor <;> decide

/-- C5, amended: a single `reportSuccess` while the breaker is open
immediately clears `unavailable` and resets the failure count, but
leaves `backoffUntil` unchanged, so a subsequent acquire is additionally
subject to any backoff deadline those failures set. -/
theorem c5_success_clears_breaker (rl : RateLimitState)
    (_h : rl.quotaExhausted = true) :
    (reportSuccess rl).1.quotaExhausted = false ∧
    (reportSuccess rl).1.consecutiveFailures = 0 ∧
    (reportSuccess rl).1.backoffUntil = rl.backoffUntil := by
  simp [reportSuccess_fst]

/-- A concrete open-breaker state with a pending backoff, for C5. -/
def c5state : RateLimitState :=
  { rlInit with quotaExhausted := true, backoffUntil := 16000 }

/-- Witness for `c5_success_clears_breaker`. -/
theorem c5_success_clears_breaker_witness :
    (reportSuccess c5state).1.quotaExhausted = false ∧
    (reportSuccess c5state).1.consecutiveFailures = 0 ∧
    (reportSuccess c5state).1.backoffUntil = c5state.backoffUntil :=
  c5_success_clears_breaker c5state rfl

/-! ### Claim C7 -/

/-- One `reportFailure("twitter")` call: that name is absent from
`DEFAULT_LIMITS`. -/
def failTwitter (g : String → RateLimitState) : String → RateLimitState :=
  reportFailureG "twitter" 0 none g

/-- Five `reportFailure` calls on the unconfigured name. -/
def twitterFailed5 : String → RateLimitState :=
  failTwitter (failTwitter (failTwitter (failTwitter (failTwitter governorInit))))

/-- C7, counterexample: "twitter" is absent from the configuration
table, yet `reportFailure` on it is NOT a no-op — five calls flip the
externally observable `isQuotaExhausted("twitter")` from `false` to
`true`. -/
theorem c7_counterexample :
    DEFAULT_LIMITS "twitter" = none ∧
    isQuotaExhaustedG "twitter" governorInit = false ∧
    isQuotaExhaustedG "twitter" twitterFailed5 = true := by
  refine ⟨by decide, by decide, by decide⟩

/-- C7, amended: `waitForSlot` on a name absent from `DEFAULT_LIMITS`
returns at its first line, before touching any state; but `reportFailure`
on such a name still runs the full outcome-reporting logic against that
name's lazily created state (here: it increments `consecutiveFailures`,
and five calls open the breaker as `c7_counterexample` shows). -/
theorem c7_unconfigured_bypass (name : String) (g : String → RateLimitState)
    (now : Int) (code : Option Int) (h : DEFAULT_LIMITS name = none)
    (h2 : (g name).quotaExhausted = false) :
    waitForSlotEntry name g = EntryOutcome.bypass ∧
    ((reportFailureG name now code g) name).consecutiveFailures =
      (g name).consecutiveFailures + 1 := by
  constructor
  · simp [waitForSlotEntry, h]
  · simp only [reportFailureG, if_pos rfl]
    exact (reportFailure_closed_counters (g name) now code h2).1

/-- Witness for `c7_unconfigured_bypass` at the name "twitter". -/
theorem c7_unconfigured_bypass_witness :
    waitForSlotEntry "twitter" governorInit = EntryOutcome.bypass ∧
    ((reportFailureG "twitter" 0 none governorInit) "twitter").consecutiveFailures =
      (governorInit "twitter").consecutiveFailures + 1 :=
  c7_unconfigured_bypass "twitter" governorInit 0 none (by decide) rfl

/-! ### Claim C8 -/

/-- The claim of C8 as a property of the model: in no reachable state is
a later-arriving call already granted a slot while an earlier-arriving
call is still waiting in the queue (thread identifiers are assigned in
arrival order at the concurrency-admission step). -/
def FifoGrant (cfg : RateLimitConfig) : Prop :=
  ∀ (ls : List Label) (s : Sys) (a c : Nat),
    run cfg sysInit ls = some s →
    s.threads.lookup a = some Phase.waiting →
    s.threads.lookup c = some Phase.granted →
    a < c → False

/-- The C8 trace on the jupiter config (`maxConcurrent = 3`): three
calls fill the slots, calls 3 and 4 queue, a `reportSuccess` resolves
waiter 3's promise, a brand-new call 5 starts — and is granted
synchronously — before waiter 3 resumes; waiter 3 then finds the slots
full again and re-enqueues at the tail. -/
def c8trace : List Label :=
  [Label.start, Label.start, Label.start, Label.start, Label.start,
   Label.success, Label.start, Label.resumeWoken 3]

/-- C8, counterexample: slot grants are not strictly FIFO — after
`c8trace`, call 3 (which arrived, and queued, before call 5 existed) is
still waiting while the later call 5 has been granted a slot. -/
theorem c8_counterexample : ¬ FifoGrant jupiterCfg := by
  intro h
  cases hs : run jupiterCfg sysInit c8trace with
  | none => exact absurd hs (by decide)
  | some s =>
    have h1 : (run jupiterCfg sysInit c8trace).map
        (fun s => s.threads.lookup 3) = some (some Phase.waiting) := by decide
    have h2 : (run jupiterCfg sysInit c8trace).map
        (fun s => s.threads.lookup 5) = some (some Phase.granted) := by decide
    rw [hs] at h1 h2
    simp only [Option.map_some'] at h1 h2
    exact h c8trace s 3 5 hs (Option.some.inj h1) (Option.some.inj h2)
      (by omega)

/-- C8, amended: when a slot is released with waiters queued, the waiter
woken is exactly the head of the queue — the earliest-enqueued one — so
wake-ups do follow queue order; the counterexample shows the granted
slot can nonetheless go to a newer caller that slips in before the woken
waiter resumes. -/
theorem c8_release_wakes_head (rl : RateLimitState) (next : Nat)
    (rest : List Nat) (h : rl.concurrencyQueue = next :: rest) :
    releaseConcurrencySlot rl =
      ({ rl with inFlight := max 0 (rl.inFlight - 1), concurrencyQueue := rest },
       some next) := by
  unfold releaseConcurrencySlot
  simp [h]

/-- A state with two queued waiters, for the C8 witness. -/
def c8qstate : RateLimitState := { rlInit with concurrencyQueue := [3, 4] }

/-- Witness for `c8_release_wakes_head`. -/
theorem c8_release_wakes_head_witness :
    releaseConcurrencySlot c8qstate =
      ({ c8qstate with inFlight := max 0 (c8qstate.inFlight - 1),
                       concurrencyQueue := [4] }, some 3) :=
  c8_release_wakes_head c8qstate 3 [4] rfl

/-! ### Claim C9 -/

/-- C9: any atomic step in which some `waitForSlot` call fails with
`SourceUnavailable` (the count of failed threads increases) consumes no
resource: `inFlight`, the recorded admission timestamps and
`lastRequestTime` are all unchanged by that step. -/
theorem c9_unavailable_consumes_nothing (cfg : RateLimitConfig) (l : Label)
    (s s2 : Sys) (h : step cfg l s = some s2)
    (hf : countFailed s.threads < countFailed s2.threads) :
    s2.rl.inFlight = s.rl.inFlight ∧ s2.rl.timestamps = s.rl.timestamps ∧
    s2.rl.lastRequestTime = s.rl.lastRequestTime := by
  cases l with
  | tick d =>
    simp only [step] at h
    obtain rfl := Option.some.inj h
    exact ⟨rfl, rfl, rfl⟩
  | success =>
    simp only [step] at h
    obtain rfl := Option.some.inj h
    exact absurd hf (not_lt.mpr (countFailed_wakeIds_le _ _))
  | failure code =>
    simp only [step] at h
    obtain rfl := Option.some.inj h
    exact absurd hf (not_lt.mpr (countFailed_wakeIds_le _ _))
  | start =>
    simp only [step] at h
    split at h
    · obtain rfl := Option.some.inj h
      exact ⟨rfl, rfl, rfl⟩
    · split at h
      · obtain rfl := Option.some.inj h
        exact ⟨rfl, rfl, rfl⟩
      · obtain rfl := Option.some.inj h
        rw [show ({ s with
              rl := (runFromBackoff cfg { s.rl with inFlight := s.rl.inFlight + 1 } s.now).1
              threads := s.threads ++
                [(s.nextArr, phaseOfOutcome (runFromBackoff cfg { s.rl with inFlight := s.rl.inFlight + 1 } s.now).2)]
              nextArr := s.nextArr + 1 } : Sys).threads = s.threads ++
                [(s.nextArr, phaseOfOutcome (runFromBackoff cfg { s.rl with inFlight := s.rl.inFlight + 1 } s.now).2)] from rfl,
          countFailed_append, if_neg (phaseOfOutcome_ne_failed _)] at hf
        omega
  | resumeWoken t =>
    simp only [step] at h
    split at h
    · split at h
      · obtain rfl := Option.some.inj h
        exact ⟨rfl, rfl, rfl⟩
      · split at h
        · obtain rfl := Option.some.inj h
          exact ⟨rfl, rfl, rfl⟩
        · obtain rfl := Option.some.inj h
          exact absurd hf
            (not_lt.mpr (countFailed_setPhase_le _ _ (phaseOfOutcome_ne_failed _) _))
    · exact absurd h (by simp)
  | resumeSleep t =>
    simp only [step] at h
    split at h
    · split at h
      · obtain rfl := Option.some.inj h
        exact absurd hf
          (not_lt.mpr (countFailed_setPhase_le _ _ (phaseOfOutcome_ne_failed _) _))
      · exact absurd h (by simp)
    · exact absurd h (by simp)

/-- A system state with an open breaker, for the C9 witness. -/
def c9start : Sys := { sysInit with rl := { rlInit with quotaExhausted := true } }

/-- The state after the fast-failed acquire of the C9 witness. -/
def c9after : Sys := (step pumpfunCfg Label.start c9start).getD sysInit

/-- Witness for `c9_unavailable_consumes_nothing`: an acquire on an open
breaker fails and consumes nothing. -/
theorem c9_unavailable_consumes_nothing_witness :
    c9after.rl.inFlight = c9start.rl.inFlight ∧
    c9after.rl.timestamps = c9start.rl.timestamps ∧
    c9after.rl.lastRequestTime = c9start.rl.lastRequestTime :=
  c9_unavailable_consumes_nothing pumpfunCfg Label.start c9start c9after
    (by decide) (by decide)

/-! ### Claim C3 -/

/-- The claim of C3 as a property of the model: in every reachable
state, no interval of duration `windowMs` contains more than
`maxRequests` of the recorded admission timestamps. -/
def SlidingWindowBound (cfg : RateLimitConfig) : Prop :=
  ∀ (ls : List Label) (s : Sys) (a : Int),
    run cfg sysInit ls = some s →
    recordedWithin s.rl.timestamps a cfg.windowMs ≤ cfg.maxRequests

/-- The C3 trace on the pumpfun config (`n = 20`, `w = 60000 ms`,
`maxConcurrent = 5`): one admission at t = 0, nineteen at t = 50000,
then at t = 50001 five concurrent acquires all find the window full and
all sleep until t = 60100 (oldest + w + 100); on waking each re-prunes
and records unconditionally, yielding 19 + 5 = 24 admissions inside one
window. -/
def c3trace : List Label :=
  [Label.start, Label.success, Label.tick 50000] ++
  (List.replicate 19 [Label.start, Label.success]).flatten ++
  [Label.tick 1, Label.start, Label.start, Label.start, Label.start,
   Label.start, Label.tick 10099, Label.resumeSleep 20, Label.resumeSleep 21,
   Label.resumeSleep 22, Label.resumeSleep 23, Label.resumeSleep 24]

/-- C3, counterexample: on the configured pumpfun source, a burst of
five simultaneous acquires that all sleep in the window wait produces 24
recorded admissions inside the interval `(100, 60100]` of duration
60000 ms, exceeding the limit of 20. -/
theorem c3_counterexample : ¬ SlidingWindowBound pumpfunCfg := by
  intro h
  cases hs : run pumpfunCfg sysInit c3trace with
  | none => exact absurd hs (by decide)
  | some s =>
    have h1 : (run pumpfunCfg sysInit c3trace).map
        (fun s => recordedWithin s.rl.timestamps 100 pumpfunCfg.windowMs) =
          some 24 := by decide
    rw [hs] at h1
    simp only [Option.map_some'] at h1
    have h2 := h c3trace s 100 hs
    rw [Option.some.inj h1] at h2
    exact absurd h2 (by decide)

/-- C3, amended: an admission taken through the fast path — when after
pruning fewer than `maxRequests` timestamps remain in the window, so the
call records without sleeping — keeps the pruned timestamp list within
`maxRequests`; the bound can only be exceeded by calls that sleep in the
window wait, which record unconditionally on waking
(`c3_counterexample`). -/
theorem c3_window_fastpath_bound (cfg : RateLimitConfig)
    (rl : RateLimitState) (now : Int) (h1 : 1 ≤ cfg.maxRequests)
    (h2 : (runFromWindow cfg rl now).2 = Outcome.granted) :
    ((runFromWindow cfg rl now).1).timestamps.length ≤ cfg.maxRequests := by
  unfold runFromWindow recordRequest at h2 ⊢
  dsimp only at h2 ⊢
  by_cases hfull :
      cfg.maxRequests ≤ (rl.timestamps.filter (fun t => now - cfg.windowMs < t)).length
  · rw [if_pos hfull] at h2 ⊢
    rcases hq : rl.timestamps.filter (fun t => now - cfg.windowMs < t) with
      _ | ⟨oldest, tail⟩
    · simpa using h1
    · rw [hq] at h2
      dsimp only at h2 ⊢
      by_cases hw : 0 < oldest + cfg.windowMs - now + 100
      · rw [if_pos hw] at h2
        exact absurd h2 (by simp)
      · exfalso
        have hmem : oldest ∈ rl.timestamps.filter (fun t => now - cfg.windowMs < t) := by
          rw [hq]
          exact List.mem_cons_self _ _
        have hpred := (List.mem_filter.mp hmem).2
        simp only [decide_eq_true_eq] at hpred
        omega
  · rw [if_neg hfull] at h2 ⊢
    simp only [List.length_append, List.length_cons, List.length_nil]
    omega

/-- Witness for `c3_window_fastpath_bound` on the empty state. -/
theorem c3_window_fastpath_bound_witness :
    ((runFromWindow pumpfunCfg rlInit 0).1).timestamps.length ≤
      pumpfunCfg.maxRequests :=
  c3_window_fastpath_bound pumpfunCfg rlInit 0 (by decide) (by decide)
